import Mathlib

/-!
Verification of the group-gated feed unlock and statistics-consistency core of
the `thesocialplatform` repository (a React-Native social photo app backed by
a document store and a blob store).

The embedding below is a shallow model of the JavaScript/TypeScript source:

* `src/services/postService.js` — `createPost`, `updatePostStatistics`,
  `updateUserPostingStatus`, `updateGroupStatistics`, `getGroupPosts`,
  `getUserPosts`, `getUserPostsInGroup`, `hasUserPostedInGroup`,
  `validateGroupMembership`;
* `src/services/imageService.js` — `uploadImage`, `uploadDualImages`,
  `deleteImage`, `handleFileUri` and its `fetchMethods` ladder;
* `src/services/userService.ts` — the `User` profile shape,
  `updateUserLocally`, `updateUserActivity`;
* `app/screens/GroupFeedScreen.tsx` — the feed unlock check
  `currentUser.groupsPosted?.includes(groupId) || false`.

Effectful collaborators (network fetch, Firebase Storage, Firestore, the
local AsyncStorage cache) are modelled by explicit state threading plus an
environment of per-call outcome oracles; machine time (`new Date()`) is a
`Nat` parameter `now`.  Fallible operations return `Except`, and every
`try/catch` of the source is an explicit `match` on such a result.
-/

namespace SocialPlatform

/-- JavaScript's `String.prototype.trim`: strip whitespace from both ends.
(Defined by structural recursion over the character list so that concrete
instances evaluate; Lean's built-in `String.trim` is extensionally the same
but is defined by well-founded recursion.) -/
def strTrim (s : String) : String :=
  ⟨((s.data.dropWhile Char.isWhitespace).reverse.dropWhile Char.isWhitespace).reverse⟩

/-- A Firestore-style error carrying the `error.code` string that
`updateGroupStatistics` inspects (`'permission-denied'`) and a message. -/
structure FireError where
  code : String
  message : String
  deriving Repr, DecidableEq

/-- The descriptor returned by a successful `uploadImage` call
(`{downloadURL, path, size, ...}` in `imageService.js`); the `filename`,
`type` and `contentType` fields play no role in any claim and are elided. -/
structure ImageResult where
  downloadURL : String
  path : String
  size : Nat
  deriving Repr, DecidableEq

/-- The post document assembled by `createPost` (`postData`, postService.js
lines 79–103) *before* the store assigns an id.  The fields are exactly the
keys written by the source; timestamps are `Nat`.  Note that the source
writes a numeric `likes: 0` plus a `likedBy: []` array and writes no
`comments` field at all. -/
structure PostData where
  imageUrl : String
  frontImageUrl : Option String
  caption : String
  authorName : String
  authorId : String
  groupId : String
  createdAt : Nat
  imageSize : Nat
  imagePath : String
  frontImageSize : Option Nat
  frontImagePath : Option String
  likes : Nat
  likedBy : List String
  type : String
  deriving Repr, DecidableEq

/-- The literal key set of the `postData` object assembled by `createPost`
(postService.js lines 79–103), in source order.  Used to state which fields
the created document does and does not contain. -/
def postDataFields : List String :=
  ["imageUrl", "frontImageUrl", "caption", "authorName", "authorId",
   "groupId", "createdAt", "imageSize", "imagePath", "frontImageSize",
   "frontImagePath", "likes", "likedBy", "type"]

/-- `newPost = { id: docRef.id, ...postData }` (postService.js line 115). -/
structure Post extends PostData where
  id : String
  deriving Repr, DecidableEq

/-- The locally cached user profile (`User` in `userService.ts`), restricted
to the fields read or written by the modelled operations.  `activityLog`
keeps only each entry's `type` tag (the `data` payload is observational). -/
structure Profile where
  id : String
  name : String
  groupsPosted : List String
  totalPosts : Nat
  hasUploaded : Bool
  lastActivity : Nat
  lastActivityType : String
  activityLog : List String
  deriving Repr, DecidableEq

/-- A remote group document, restricted to the fields touched by
`updateGroupStatistics` and `validateGroupMembership`. -/
structure Group where
  members : List String
  totalPosts : Nat
  lastActivity : Nat
  deriving Repr, DecidableEq

/-- The world state threaded through the post-creation pipeline: the blob
store's stored paths, the `posts` collection, the local profile cache
(`getUserLocally` may return null, hence `Option`), and the `groups`
collection as an association list keyed by group id. -/
structure World where
  storagePaths : List String
  posts : List Post
  profile : Option Profile
  groups : List (String × Group)
  deriving Repr, DecidableEq

/-- Environment of per-call outcome oracles for the effectful collaborators.
`uploadOutcome uri imageType` is the net result of `uriToBlob` +
`validateImageBlob` + `uploadBytes` + `getDownloadURL` for one `uploadImage`
call (the source translates storage error codes into messages; the oracle
yields the translated message).  `deleteOk path` says whether `deleteObject`
succeeds (object-not-found counts as success, as in `deleteImage`).
`addDocOutcome` is the outcome of the single `addDoc(posts)` call of
`createPost`, `groupUpdateOutcome` that of the `updateDoc(groups)` call of
`updateGroupStatistics`, and `now` the current time. -/
structure Env where
  uploadOutcome : String → String → Except String ImageResult
  deleteOk : String → Bool
  addDocOutcome : Except FireError String
  groupUpdateOutcome : Option FireError
  now : Nat

/-- `uploadImage(imageUri, groupId, userId, imageType)` (imageService.js):
validates its inputs, then converts, validates and uploads the image and
resolves a download URL — all folded into `uploadOutcome`; a successful call
stores the blob at the descriptor's path. -/
def uploadImage (env : Env) (imageUri groupId userId imageType : String)
    (st : List String) : Except String ImageResult × List String :=
  if imageUri = "" then (.error "Image URI is required", st)
  else if groupId = "" then (.error "Group ID is required", st)
  else if userId = "" then (.error "User ID is required", st)
  else
    match env.uploadOutcome imageUri imageType with
    | .error e => (.error e, st)
    | .ok r => (.ok r, r.path :: st)

/-- `deleteImage(imagePath)` (imageService.js): never throws; returns `true`
on deletion or object-not-found, `false` on a missing path or any other
failure (all errors are caught inside the function). -/
def deleteImage (env : Env) (imagePath : String) (st : List String) :
    Bool × List String :=
  if imagePath = "" then (false, st)
  else if env.deleteOk imagePath then (true, st.erase imagePath)
  else (false, st)

/-- `uploadDualImages(backImageUri, frontImageUri, groupId, userId)`
(imageService.js lines 101–185): uploads the back (`'main'`) image first,
then the front image; if the front upload throws, the stored main image is
deleted best-effort (a cleanup failure is only logged) and the front failure
is rethrown; every error is wrapped in `Dual image upload failed: `. -/
def uploadDualImages (env : Env) (backImageUri frontImageUri groupId userId : String)
    (st : List String) : Except String (ImageResult × ImageResult) × List String :=
  if backImageUri = "" then
    (.error "Dual image upload failed: Back camera image URI is required", st)
  else if frontImageUri = "" then
    (.error "Dual image upload failed: Front camera image URI is required", st)
  else if groupId = "" then
    (.error "Dual image upload failed: Group ID is required", st)
  else if userId = "" then
    (.error "Dual image upload failed: User ID is required", st)
  else
    match uploadImage env backImageUri groupId userId "main" st with
    | (.error e, st1) =>
        (.error ("Dual image upload failed: Back camera upload failed: " ++ e), st1)
    | (.ok main, st1) =>
        if main.downloadURL = "" then
          (.error "Dual image upload failed: Back camera upload failed - no download URL received", st1)
        else
          match uploadImage env frontImageUri groupId userId "front" st1 with
          | (.error e, st2) =>
              let cleaned := (deleteImage env main.path st2).2
              (.error ("Dual image upload failed: Front camera upload failed: " ++ e), cleaned)
          | (.ok front, st2) =>
              if front.downloadURL = "" then
                (.error "Dual image upload failed: Front camera upload failed - no download URL received", st2)
              else if main.downloadURL = "" ∨ front.downloadURL = "" then
                (.error "Dual image upload failed: One or both image uploads failed validation", st2)
              else
                (.ok (main, front), st2)

/-- `updateUserActivity(activityType, data)` applied to an in-hand profile
(`userService.ts` lines 136–166): appends the activity, keeps the last 50
entries (`slice(-50)`), and refreshes `lastActivity`/`lastActivityType`.
Its internal errors are caught, so it never throws. -/
def updateUserActivityOn (now : Nat) (activityType : String) (u : Profile) : Profile :=
  let log := u.activityLog ++ [activityType]
  { u with
    lastActivity := now
    lastActivityType := activityType
    activityLog := log.drop (log.length - 50) }

/-- `updateUserPostingStatus(authorId, groupId, post)` (postService.js lines
162–217): reads the cached profile (throws if absent; an id mismatch only
warns), computes `isFirstPostInGroup = !groupsPosted.includes(groupId)`,
increments `totalPosts`, sets `hasUploaded`, refreshes `lastActivity`,
appends `groupId` to `groupsPosted` only on a first post in that group
(via `updateUserLocally`, whose Firebase mirror failure is swallowed), then
records a `first_post_in_group`/`posted_in_group` activity. -/
def updateUserPostingStatus (now : Nat) (authorId groupId : String) (post : Post)
    (profile : Option Profile) : Except String Profile :=
  match profile with
  | none => .error "Could not retrieve current user data"
  | some currentUser =>
      let groupsPosted := currentUser.groupsPosted
      let isFirstPostInGroup := !(groupsPosted.contains groupId)
      let updated : Profile :=
        { currentUser with
          totalPosts := currentUser.totalPosts + 1
          hasUploaded := true
          lastActivity := now
          groupsPosted :=
            if isFirstPostInGroup then groupsPosted ++ [groupId] else groupsPosted }
      let activityType :=
        if isFirstPostInGroup then "first_post_in_group" else "posted_in_group"
      .ok (updateUserActivityOn now activityType updated)

/-- `updateGroupStatistics(groupId)` (postService.js lines 220–242):
`updateDoc` increments the group's remote `totalPosts` by 1 and refreshes
`lastActivity`; a `permission-denied` failure is swallowed (normal return,
no remote change), any other failure is rethrown. -/
def updateGroupStatistics (outcome : Option FireError) (now : Nat) (groupId : String)
    (groups : List (String × Group)) : Except FireError (List (String × Group)) :=
  match outcome with
  | some e => if e.code = "permission-denied" then .ok groups else .error e
  | none =>
      .ok (groups.map fun kv =>
        if kv.1 = groupId then
          (kv.1, { kv.2 with totalPosts := kv.2.totalPosts + 1, lastActivity := now })
        else kv)

/-- `updatePostStatistics(authorId, groupId, post)` (postService.js lines
144–159): user posting status first, then group counters; any error is
rethrown to the caller, but state already updated stays updated. -/
def updatePostStatistics (env : Env) (authorId groupId : String) (post : Post)
    (profile : Option Profile) (groups : List (String × Group)) :
    Except String Unit × Option Profile × List (String × Group) :=
  match updateUserPostingStatus env.now authorId groupId post profile with
  | .error e => (.error e, profile, groups)
  | .ok p' =>
      match updateGroupStatistics env.groupUpdateOutcome env.now groupId groups with
      | .error e => (.error e.message, some p', groups)
      | .ok gs => (.ok (), some p', gs)

/-- `validateGroupMembership(userId, groupId)` (postService.js lines
245–272): membership lookup; a missing group, or any lookup error, yields
`false`.  The caller only logs the result. -/
def validateGroupMembership (userId groupId : String)
    (groups : List (String × Group)) : Bool :=
  match groups.find? (fun kv => kv.1 == groupId) with
  | some kv => kv.2.members.contains userId
  | none => false

/-- The `postData` record assembly of `createPost` (postService.js lines
79–103): caption and author/group fields trimmed, `createdAt` set to the
current time, numeric `likes` 0, empty `likedBy`, and a
`dual_camera`/`single_camera` type tag.  No `comments` field is written. -/
def mkPostData (now : Nat) (caption authorName authorId groupId : String)
    (main : ImageResult) (front : Option ImageResult) : PostData :=
  { imageUrl := main.downloadURL
    frontImageUrl := front.map (fun f => f.downloadURL)
    caption := strTrim caption
    authorName := strTrim authorName
    authorId := strTrim authorId
    groupId := strTrim groupId
    createdAt := now
    imageSize := main.size
    imagePath := main.path
    frontImageSize := front.map (fun f => f.size)
    frontImagePath := front.map (fun f => f.path)
    likes := 0
    likedBy := []
    type := match front with | some _ => "dual_camera" | none => "single_camera" }

/-- The tail of `createPost` after a successful upload (postService.js lines
79–128): assemble `postData`, `addDoc` it (a write failure propagates,
wrapped by the outer catch), then run `updatePostStatistics`, whose failure
is caught and logged — the created post is returned regardless. -/
def savePostAndStats (env : Env) (caption authorName authorId groupId : String)
    (main : ImageResult) (front : Option ImageResult) (w : World) :
    Except String Post × World :=
  let postData := mkPostData env.now caption authorName authorId groupId main front
  match env.addDocOutcome with
  | .error e => (.error ("Post creation failed: " ++ e.message), w)
  | .ok docId =>
      let newPost : Post := { postData with id := docId }
      let w1 : World := { w with posts := w.posts ++ [newPost] }
      let statsResult := updatePostStatistics env authorId groupId newPost w1.profile w1.groups
      (.ok newPost, { w1 with profile := statsResult.2.1, groups := statsResult.2.2 })

/-- `createPost(backImageUri, caption, authorName, authorId, groupId,
frontImageUri)` (postService.js lines 7–141): input validation, advisory
membership check, single or dual upload (any upload error is wrapped and
rethrown before the store write), post-upload download-URL validation,
then `savePostAndStats`.  Every error surfaces as
`Post creation failed: ...` via the outer catch. -/
def createPost (env : Env) (backImageUri caption authorName authorId groupId : String)
    (frontImageUri : Option String) (w : World) : Except String Post × World :=
  if backImageUri = "" then
    (.error "Post creation failed: Back camera image is required", w)
  else if strTrim caption = "" then
    (.error "Post creation failed: Caption is required and cannot be empty", w)
  else if strTrim authorName = "" then
    (.error "Post creation failed: Author name is required", w)
  else if strTrim authorId = "" then
    (.error "Post creation failed: Author ID is required", w)
  else if strTrim groupId = "" then
    (.error "Post creation failed: Group ID is required", w)
  else
    let _isMember := validateGroupMembership authorId groupId w.groups
    match frontImageUri with
    | some frontUri =>
        match uploadDualImages env backImageUri frontUri groupId authorId w.storagePaths with
        | (.error e, st) =>
            (.error ("Post creation failed: Failed to upload images: " ++ e),
             { w with storagePaths := st })
        | (.ok (main, front), st) =>
            if main.downloadURL = "" then
              (.error "Post creation failed: Back camera image upload failed - no download URL",
               { w with storagePaths := st })
            else if front.downloadURL = "" then
              (.error "Post creation failed: Front camera image upload failed - no download URL",
               { w with storagePaths := st })
            else
              savePostAndStats env caption authorName authorId groupId main (some front)
                { w with storagePaths := st }
    | none =>
        match uploadImage env backImageUri groupId authorId "main" w.storagePaths with
        | (.error e, st) =>
            (.error ("Post creation failed: Failed to upload images: " ++ e),
             { w with storagePaths := st })
        | (.ok r, st) =>
            if r.downloadURL = "" then
              (.error "Post creation failed: Image upload failed - no download URL",
               { w with storagePaths := st })
            else
              savePostAndStats env caption authorName authorId groupId r none
                { w with storagePaths := st }

/-- The `orderBy('createdAt', 'desc')` of the post queries: a stable
insertion sort, newest first. -/
def insertDesc (p : Post) : List Post → List Post
  | [] => [p]
  | q :: qs => if q.createdAt ≤ p.createdAt then p :: q :: qs else q :: insertDesc p qs

/-- Sort a post list by `createdAt` descending. -/
def sortByCreatedAtDesc (l : List Post) : List Post :=
  l.foldr insertDesc []

/-- The raw `getDocs(query(...))` of `getGroupPosts`: filter by `groupId`,
order by `createdAt` descending; `queryFails` is the store-level failure
oracle for this query. -/
def getGroupPostsQuery (queryFails : Bool) (groupId : String) (posts : List Post) :
    Except String (List Post) :=
  if groupId = "" then .error "Group ID is required"
  else if queryFails then .error "store query failed"
  else .ok (sortByCreatedAtDesc (posts.filter fun p => p.groupId == groupId))

/-- `getGroupPosts(groupId)` (postService.js lines 275–303): any error —
including the missing-id validation throw — is caught and an empty list is
returned. -/
def getGroupPosts (queryFails : Bool) (groupId : String) (posts : List Post) :
    List Post :=
  match getGroupPostsQuery queryFails groupId posts with
  | .ok l => l
  | .error _ => []

/-- The raw store query of `getUserPosts` (no input validation in the
source): filter by `authorId`, order by `createdAt` descending. -/
def getUserPostsQuery (queryFails : Bool) (userId : String) (posts : List Post) :
    Except String (List Post) :=
  if queryFails then .error "store query failed"
  else .ok (sortByCreatedAtDesc (posts.filter fun p => p.authorId == userId))

/-- `getUserPosts(userId)` (postService.js lines 306–330): fail-open, an
error yields `[]`. -/
def getUserPosts (queryFails : Bool) (userId : String) (posts : List Post) :
    List Post :=
  match getUserPostsQuery queryFails userId posts with
  | .ok l => l
  | .error _ => []

/-- The raw store query of `getUserPostsInGroup` (no input validation in the
source): filter by `authorId` and `groupId`, order by `createdAt`
descending. -/
def getUserPostsInGroupQuery (queryFails : Bool) (userId groupId : String)
    (posts : List Post) : Except String (List Post) :=
  if queryFails then .error "store query failed"
  else .ok (sortByCreatedAtDesc
    (posts.filter fun p => p.authorId == userId && p.groupId == groupId))

/-- `getUserPostsInGroup(userId, groupId)` (postService.js lines 333–358):
fail-open, an error yields `[]`. -/
def getUserPostsInGroup (queryFails : Bool) (userId groupId : String)
    (posts : List Post) : List Post :=
  match getUserPostsInGroupQuery queryFails userId groupId posts with
  | .ok l => l
  | .error _ => []

/-- `hasUserPostedInGroup(userId, groupId)` (postService.js lines 361–369):
`(await getUserPostsInGroup(userId, groupId)).length > 0`; its own catch
returns `false`, but `getUserPostsInGroup` already never throws. -/
def hasUserPostedInGroup (queryFails : Bool) (userId groupId : String)
    (posts : List Post) : Bool :=
  decide ((getUserPostsInGroup queryFails userId groupId posts).length > 0)

/-- The feed unlock check of `GroupFeedScreen.loadUserAndFeed`
(`currentUser.groupsPosted?.includes(groupId) || false`, lines 63–81): the
lock overlay is shown exactly when this is `false`. -/
def isUnlocked (profile : Profile) (groupId : String) : Bool :=
  profile.groupsPosted.contains groupId

/-! ### The `file://` retrieval ladder of `imageService.handleFileUri` -/

/-- The `fetch` options object of one retrieval strategy: whether
`method: 'GET'` is set, the literal header list, whether
`cache: 'no-cache'` is set, and whether `credentials: 'omit'` is set. -/
structure FetchOptions where
  methodGET : Bool
  headers : List (String × String)
  noCache : Bool
  credentialsOmit : Bool
  deriving Repr, DecidableEq

/-- One entry of the `fetchMethods` array: a display name plus options. -/
structure FetchMethod where
  name : String
  options : FetchOptions
  deriving Repr, DecidableEq

/-- The `fetchMethods` array of `handleFileUri` (imageService.js lines
258–296), in source order: `Simple fetch` (no headers), `With headers`
(one `Accept` header), `With specific headers` (`Accept` plus
`Content-Type`), `Minimal options` (only `cache: 'no-cache'`). -/
def fetchMethods : List FetchMethod :=
  [ { name := "Simple fetch"
      options := { methodGET := true, headers := [], noCache := true, credentialsOmit := true } }
  , { name := "With headers"
      options := { methodGET := true, headers := [("Accept", "image/*")],
                   noCache := true, credentialsOmit := true } }
  , { name := "With specific headers"
      options := { methodGET := true
                   headers := [("Accept", "image/jpeg,image/png,image/*"),
                               ("Content-Type", "image/jpeg")]
                   noCache := true, credentialsOmit := true } }
  , { name := "Minimal options"
      options := { methodGET := false, headers := [], noCache := true,
                   credentialsOmit := false } } ]

/-- The fixed inter-attempt wait of `handleFileUri`
(`setTimeout(resolve, 300)`), in milliseconds. -/
def delayMs : Nat := 300

/-- One loop iteration body of `handleFileUri`: `fetch(fileUri, options)`
(outcome given by the oracle `fetchR`, returning the blob size), then the
`response.ok` check (folded into the oracle) and the empty-blob rejection
(`blob.size === 0` throws `Received empty blob`). -/
def tryFetchMethod (fetchR : FetchOptions → Except String Nat)
    (m : FetchMethod) : Except String Nat :=
  match fetchR m.options with
  | .error e => .error e
  | .ok size => if size = 0 then .error "Received empty blob" else .ok size

/-- The retry loop of `handleFileUri` over a remaining strategy list,
carrying `lastError` and accumulating the milliseconds waited: a failed
attempt that is not the last is followed by a `delayMs` wait; exhaustion
produces the terminal `Failed to process file URI after N attempts` error. -/
def runFetchMethods (fetchR : FetchOptions → Except String Nat) :
    List FetchMethod → Option String → Except String Nat × Nat
  | [], lastError =>
      (.error ("Failed to process file URI after " ++ toString fetchMethods.length
        ++ " attempts. Last error: " ++ lastError.getD ""), 0)
  | m :: rest, _lastError =>
      match tryFetchMethod fetchR m with
      | .ok size => (.ok size, 0)
      | .error e =>
          let next := runFetchMethods fetchR rest (some e)
          (next.1, next.2 + if rest.isEmpty then 0 else delayMs)

/-- `handleFileUri(fileUri)` (imageService.js lines 255–334): try the
`fetchMethods` strategies in order, returning the first successful
non-empty blob (its size here) together with the total milliseconds spent
in inter-attempt waits. -/
def handleFileUri (fetchR : FetchOptions → Except String Nat) :
    Except String Nat × Nat :=
  runFetchMethods fetchR fetchMethods none

/-! ### Iterated post creation -/

/-- The per-call inputs of one `createPost` invocation (the author id is
held fixed by `runPosts`). -/
structure CallArgs where
  env : Env
  backImageUri : String
  caption : String
  authorName : String
  groupId : String
  frontImageUri : Option String

/-- Run a sequence of `createPost` calls by one author, returning whether
every call returned successfully together with the final world. -/
def runPosts (authorId : String) : List CallArgs → World → Bool × World
  | [], w => (true, w)
  | c :: rest, w =>
      let step := createPost c.env c.backImageUri c.caption c.authorName authorId
        c.groupId c.frontImageUri w
      let restRun := runPosts authorId rest step.2
      ((match step.1 with | .ok _ => true | .error _ => false) && restRun.1, restRun.2)

/-- Premise bundle: the upload oracle succeeds, with non-empty download
URLs, for the single or dual upload that `createPost` will perform. -/
def uploadsOk (env : Env) (backUri : String) (frontUri : Option String)
    (authorId : String) : Prop :=
  match frontUri with
  | none => ∃ r, env.uploadOutcome backUri "main" = .ok r ∧ r.downloadURL ≠ ""
  | some f => f ≠ "" ∧ ∃ m fr,
      env.uploadOutcome backUri "main" = .ok m ∧ m.downloadURL ≠ "" ∧
      env.uploadOutcome f "front" = .ok fr ∧ fr.downloadURL ≠ ""

/-! ### Concrete data for evaluating the theorems -/

/-- A concrete back-camera upload descriptor. -/
def wImgMain : ImageResult :=
  { downloadURL := "https://cdn/main.jpg", path := "groups/g1/photos/main.jpg", size := 10 }

/-- A concrete front-camera upload descriptor. -/
def wImgFront : ImageResult :=
  { downloadURL := "https://cdn/front.jpg", path := "groups/g1/photos/front.jpg", size := 11 }

/-- A fresh profile for user `u1`. -/
def wProfile : Profile :=
  { id := "u1", name := "Alice", groupsPosted := [], totalPosts := 0,
    hasUploaded := false, lastActivity := 0, lastActivityType := "", activityLog := [] }

/-- `wProfile` after its first post in `g1` at time 7. -/
def wProfileA : Profile :=
  { wProfile with
    totalPosts := 1, hasUploaded := true, lastActivity := 7,
    groupsPosted := ["g1"], lastActivityType := "first_post_in_group",
    activityLog := ["first_post_in_group"] }

/-- `wProfileA` after a second post in `g1` at time 8. -/
def wProfileB : Profile :=
  { wProfileA with
    totalPosts := 2, lastActivity := 8,
    lastActivityType := "posted_in_group",
    activityLog := ["first_post_in_group", "posted_in_group"] }

/-- A concrete group `g1` with member `u1`. -/
def wGroup : Group := { members := ["u1"], totalPosts := 0, lastActivity := 0 }

/-- A concrete initial world: empty stores, cached `wProfile`, group `g1`. -/
def wWorld : World :=
  { storagePaths := [], posts := [], profile := some wProfile,
    groups := [("g1", wGroup)] }

/-- An environment in which every collaborator call succeeds. -/
def wEnv : Env :=
  { uploadOutcome := fun _ t => if t == "front" then .ok wImgFront else .ok wImgMain,
    deleteOk := fun _ => true, addDocOutcome := .ok "post1",
    groupUpdateOutcome := none, now := 7 }

/-- A permission-denied Firestore error. -/
def wPermErr : FireError := { code := "permission-denied", message := "denied" }

/-- A non-permission Firestore error. -/
def wOtherErr : FireError := { code := "unavailable", message := "backend unavailable" }

/-- A post-write Firestore error. -/
def wAddErr : FireError := { code := "internal", message := "write failed" }

/-- `wEnv` with a failing `addDoc`. -/
def wEnvAddFail : Env := { wEnv with addDocOutcome := .error wAddErr }

/-- `wEnv` with a failing (non-permission) group counter update. -/
def wEnvStatsFail : Env := { wEnv with groupUpdateOutcome := some wOtherErr }

/-- `wEnv` with a failing front-camera upload. -/
def wEnvFrontFail : Env :=
  { wEnv with uploadOutcome := fun _ t =>
      if t == "front" then .error "network request failed" else .ok wImgMain }

/-- `wEnvFrontFail` whose storage deletions also fail. -/
def wEnvFrontFailNoDelete : Env := { wEnvFrontFail with deleteOk := fun _ => false }

/-- The post created by `createPost wEnv "file://back.jpg" "cap" "Alice" "u1"
"g1" none wWorld`. -/
def wPost : Post :=
  { imageUrl := "https://cdn/main.jpg", frontImageUrl := none, caption := "cap",
    authorName := "Alice", authorId := "u1", groupId := "g1", createdAt := 7,
    imageSize := 10, imagePath := "groups/g1/photos/main.jpg",
    frontImageSize := none, frontImagePath := none, likes := 0, likedBy := [],
    type := "single_camera", id := "post1" }

/-- One all-success `createPost` invocation by `u1` into `g1`. -/
def wCall : CallArgs :=
  { env := wEnv, backImageUri := "file://back.jpg", caption := "cap",
    authorName := "Alice", groupId := "g1", frontImageUri := none }

/-- A fetch oracle that always fails. -/
def wFetchFail : FetchOptions → Except String Nat :=
  fun _ => .error "network request failed"

/-- A fetch oracle that succeeds only for the one-header strategy. -/
def wFetchSecond : FetchOptions → Except String Nat :=
  fun o => if o.headers.length == 1 then .ok 42 else .error "network request failed"

/-! ### Helper lemmas -/

/-- A string with a non-empty trim is non-empty. -/
theorem trim_ne_empty {s : String} (h : strTrim s ≠ "") : s ≠ "" := by
  intro hs
  subst hs
  exact h rfl

/-- Characterisation of a successful `uploadImage` call. -/
theorem uploadImage_ok (env : Env) (uri g uid t : String) (st : List String)
    (r : ImageResult) (hu : uri ≠ "") (hg : g ≠ "") (huid : uid ≠ "")
    (h : env.uploadOutcome uri t = .ok r) :
    uploadImage env uri g uid t st = (.ok r, r.path :: st) := by
  unfold uploadImage
  rw [if_neg hu, if_neg hg, if_neg huid, h]

/-- Characterisation of a failing `uploadImage` call. -/
theorem uploadImage_err (env : Env) (uri g uid t : String) (st : List String)
    (e : String) (hu : uri ≠ "") (hg : g ≠ "") (huid : uid ≠ "")
    (h : env.uploadOutcome uri t = .error e) :
    uploadImage env uri g uid t st = (.error e, st) := by
  unfold uploadImage
  rw [if_neg hu, if_neg hg, if_neg huid, h]

/-- On a cached profile, `updateUserPostingStatus` always succeeds,
increments `totalPosts` by one, and appends the group to `groupsPosted`
exactly when it was not already there. -/
theorem updateUserPostingStatus_some (now : Nat) (aid g : String) (post : Post)
    (p : Profile) :
    ∃ p', updateUserPostingStatus now aid g post (some p) = .ok p' ∧
      p'.totalPosts = p.totalPosts + 1 ∧
      p'.groupsPosted =
        (if p.groupsPosted.contains g = true then p.groupsPosted
         else p.groupsPosted ++ [g]) := by
  unfold updateUserPostingStatus updateUserActivityOn
  cases hc : p.groupsPosted.contains g <;>
    · refine ⟨_, rfl, by simp, ?_⟩
      have hc' := hc
      simp at hc'
      simp [hc, hc']

/-- Through `updatePostStatistics`, a cached profile is always replaced by
the profile produced by `updateUserPostingStatus`, whether or not the group
counter update fails. -/
theorem updatePostStatistics_profile (env : Env) (aid g : String) (post : Post)
    (p : Profile) (groups : List (String × Group)) :
    ∃ p', (updatePostStatistics env aid g post (some p) groups).2.1 = some p' ∧
      p'.totalPosts = p.totalPosts + 1 ∧
      p'.groupsPosted =
        (if p.groupsPosted.contains g = true then p.groupsPosted
         else p.groupsPosted ++ [g]) := by
  obtain ⟨p', hp', htot, hgp⟩ := updateUserPostingStatus_some env.now aid g post p
  refine ⟨p', ?_, htot, hgp⟩
  unfold updatePostStatistics
  rw [hp']
  cases updateGroupStatistics env.groupUpdateOutcome env.now g groups <;> rfl

/-- `savePostAndStats` with a failing `addDoc` propagates the wrapped error
and leaves the world unchanged. -/
theorem savePostAndStats_err (env : Env) (c an aid g : String)
    (main : ImageResult) (front : Option ImageResult) (w : World) (e : FireError)
    (h : env.addDocOutcome = .error e) :
    savePostAndStats env c an aid g main front w =
      (.error ("Post creation failed: " ++ e.message), w) := by
  unfold savePostAndStats
  rw [h]

/-- `savePostAndStats` with a successful `addDoc` returns the assembled post
carrying the assigned id, appends it to the store, and swallows any
statistics failure. -/
theorem savePostAndStats_ok (env : Env) (c an aid g : String)
    (main : ImageResult) (front : Option ImageResult) (w : World) (docId : String)
    (h : env.addDocOutcome = .ok docId) :
    (savePostAndStats env c an aid g main front w).1 =
      .ok { mkPostData env.now c an aid g main front with id := docId } ∧
    (savePostAndStats env c an aid g main front w).2.posts =
      w.posts ++ [{ mkPostData env.now c an aid g main front with id := docId }] := by
  unfold savePostAndStats
  rw [h]
  exact ⟨rfl, rfl⟩

/-- Under passing validation and successful uploads, `createPost` reduces to
`savePostAndStats` on the world with the uploaded blobs stored; the post is
dual-image exactly when a front image was supplied. -/
theorem createPost_reaches_write (env : Env) (b c an aid g : String)
    (f : Option String) (w : World)
    (hb : b ≠ "") (hc : strTrim c ≠ "") (han : strTrim an ≠ "")
    (haid : strTrim aid ≠ "") (hg : strTrim g ≠ "")
    (hu : uploadsOk env b f aid) :
    ∃ main front st,
      createPost env b c an aid g f w =
        savePostAndStats env c an aid g main front { w with storagePaths := st } ∧
      front.isSome = f.isSome := by
  have hg' : g ≠ "" := trim_ne_empty hg
  have haid' : aid ≠ "" := trim_ne_empty haid
  cases f with
  | none =>
      obtain ⟨r, hr, hurl⟩ := hu
      refine ⟨r, none, r.path :: w.storagePaths, ?_, rfl⟩
      simp only [createPost, if_neg hb, if_neg hc, if_neg han, if_neg haid, if_neg hg,
        uploadImage_ok env b g aid "main" w.storagePaths r hb hg' haid' hr]
      simp [hurl]
  | some furi =>
      obtain ⟨hf, m, fr, hm, hmu, hfr, hfru⟩ := hu
      refine ⟨m, some fr, fr.path :: m.path :: w.storagePaths, ?_, rfl⟩
      simp only [createPost, if_neg hb, if_neg hc, if_neg han, if_neg haid, if_neg hg,
        uploadDualImages, if_neg hf, if_neg hg', if_neg haid',
        uploadImage_ok env b g aid "main" w.storagePaths m hb hg' haid' hm,
        uploadImage_ok env furi g aid "front" (m.path :: w.storagePaths) fr hf hg' haid' hfr]
      simp [hmu, hfru]

/-- Full outcome split of `savePostAndStats` as seen by the profile cache:
either the write succeeded and `totalPosts` advanced by one, or the write
failed and the profile is untouched. -/
theorem savePostAndStats_profile_cases (env : Env) (c an aid g : String)
    (main : ImageResult) (front : Option ImageResult) (w : World) (p : Profile)
    (hp : w.profile = some p) :
    ((∃ post, (savePostAndStats env c an aid g main front w).1 = .ok post) ∧
      ∃ p', (savePostAndStats env c an aid g main front w).2.profile = some p' ∧
        p'.totalPosts = p.totalPosts + 1) ∨
    ((∃ msg, (savePostAndStats env c an aid g main front w).1 = .error msg) ∧
      (savePostAndStats env c an aid g main front w).2.profile = some p) := by
  cases h : env.addDocOutcome with
  | error e =>
      right
      simp only [savePostAndStats, h]
      exact ⟨⟨_, rfl⟩, hp⟩
  | ok docId =>
      left
      constructor
      · simp only [savePostAndStats, h]
        exact ⟨_, rfl⟩
      · simp only [savePostAndStats, h]
        rw [hp]
        obtain ⟨p', h1, h2, -⟩ := updatePostStatistics_profile env aid g
          ({ mkPostData env.now c an aid g main front with id := docId } : Post) p w.groups
        exact ⟨p', h1, h2⟩

/-- Full outcome split of one `createPost` call as seen by the profile
cache: a successful call advances `totalPosts` by exactly one, a failed call
leaves the cached profile untouched. -/
theorem createPost_profile_cases (env : Env) (b c an aid g : String)
    (f : Option String) (w : World) (p : Profile) (hp : w.profile = some p) :
    ((∃ post, (createPost env b c an aid g f w).1 = .ok post) ∧
      ∃ p', (createPost env b c an aid g f w).2.profile = some p' ∧
        p'.totalPosts = p.totalPosts + 1) ∨
    ((∃ msg, (createPost env b c an aid g f w).1 = .error msg) ∧
      (createPost env b c an aid g f w).2.profile = some p) := by
  by_cases hb : b = ""
  · simp only [createPost, if_pos hb]
    exact Or.inr ⟨⟨_, rfl⟩, hp⟩
  by_cases hc : strTrim c = ""
  · simp only [createPost, if_neg hb, if_pos hc]
    exact Or.inr ⟨⟨_, rfl⟩, hp⟩
  by_cases han : strTrim an = ""
  · simp only [createPost, if_neg hb, if_neg hc, if_pos han]
    exact Or.inr ⟨⟨_, rfl⟩, hp⟩
  by_cases haid : strTrim aid = ""
  · simp only [createPost, if_neg hb, if_neg hc, if_neg han, if_pos haid]
    exact Or.inr ⟨⟨_, rfl⟩, hp⟩
  by_cases hg : strTrim g = ""
  · simp only [createPost, if_neg hb, if_neg hc, if_neg han, if_neg haid, if_pos hg]
    exact Or.inr ⟨⟨_, rfl⟩, hp⟩
  cases f with
  | some furi =>
      cases hdu : uploadDualImages env b furi g aid w.storagePaths with
      | mk res st =>
        cases res with
        | error e =>
            simp only [createPost, if_neg hb, if_neg hc, if_neg han, if_neg haid, if_neg hg, hdu]
            exact Or.inr ⟨⟨_, rfl⟩, hp⟩
        | ok pair =>
            obtain ⟨main, front⟩ := pair
            by_cases hmu : main.downloadURL = ""
            · simp only [createPost, if_neg hb, if_neg hc, if_neg han, if_neg haid, if_neg hg,
                hdu, if_pos hmu]
              exact Or.inr ⟨⟨_, rfl⟩, hp⟩
            by_cases hfu : front.downloadURL = ""
            · simp only [createPost, if_neg hb, if_neg hc, if_neg han, if_neg haid, if_neg hg,
                hdu, if_neg hmu, if_pos hfu]
              exact Or.inr ⟨⟨_, rfl⟩, hp⟩
            simp only [createPost, if_neg hb, if_neg hc, if_neg han, if_neg haid, if_neg hg,
              hdu, if_neg hmu, if_neg hfu]
            exact savePostAndStats_profile_cases env c an aid g main (some front)
              { w with storagePaths := st } p hp
  | none =>
      cases hup : uploadImage env b g aid "main" w.storagePaths with
      | mk res st =>
        cases res with
        | error e =>
            simp only [createPost, if_neg hb, if_neg hc, if_neg han, if_neg haid, if_neg hg, hup]
            exact Or.inr ⟨⟨_, rfl⟩, hp⟩
        | ok r =>
            by_cases hru : r.downloadURL = ""
            · simp only [createPost, if_neg hb, if_neg hc, if_neg han, if_neg haid, if_neg hg,
                hup, if_pos hru]
              exact Or.inr ⟨⟨_, rfl⟩, hp⟩
            simp only [createPost, if_neg hb, if_neg hc, if_neg han, if_neg haid, if_neg hg,
              hup, if_neg hru]
            exact savePostAndStats_profile_cases env c an aid g r none
              { w with storagePaths := st } p hp

/-- Insertion preserves length. -/
theorem length_insertDesc (p : Post) (l : List Post) :
    (insertDesc p l).length = l.length + 1 := by
  induction l with
  | nil => rfl
  | cons q qs ih =>
      unfold insertDesc
      split
      · simp
      · simp [ih]

/-- The `createdAt`-descending sort preserves length. -/
theorem length_sortByCreatedAtDesc (l : List Post) :
    (sortByCreatedAtDesc l).length = l.length := by
  unfold sortByCreatedAtDesc
  induction l with
  | nil => rfl
  | cons p ps ih => simp [length_insertDesc, ih]

/-- If every strategy in the remaining list fails, the retry loop fails with
the terminal message and has waited once per non-final attempt. -/
theorem runFetchMethods_all_fail (fetchR : FetchOptions → Except String Nat) :
    ∀ (L : List FetchMethod) (le : Option String),
      (∀ m ∈ L, ∃ e, tryFetchMethod fetchR m = .error e) →
      (∃ msg, (runFetchMethods fetchR L le).1 = .error msg) ∧
      (runFetchMethods fetchR L le).2 = (L.length - 1) * delayMs := by
  intro L
  induction L with
  | nil => exact fun le _ => ⟨⟨_, rfl⟩, rfl⟩
  | cons m rest ih =>
      intro le hfail
      obtain ⟨e, he⟩ := hfail m (List.mem_cons_self m rest)
      have hrest := ih (some e) fun m' hm' => hfail m' (List.mem_cons_of_mem m hm')
      simp only [runFetchMethods, he]
      refine ⟨hrest.1, ?_⟩
      rw [hrest.2]
      cases rest with
      | nil => simp [delayMs]
      | cons r rs => simp [List.isEmpty, delayMs]; omega

/-- If the first `k` strategies fail and the `k`-th succeeds with a
non-empty blob, the retry loop returns that result having waited `k`
times. -/
theorem runFetchMethods_first_success (fetchR : FetchOptions → Except String Nat) :
    ∀ (L : List FetchMethod) (le : Option String) (k : Nat) (hk : k < L.length) (n : Nat),
      (∀ i (hi : i < k), ∃ e,
        tryFetchMethod fetchR (L.get ⟨i, Nat.lt_trans hi hk⟩) = .error e) →
      tryFetchMethod fetchR (L.get ⟨k, hk⟩) = .ok n →
      (runFetchMethods fetchR L le).1 = .ok n ∧
      (runFetchMethods fetchR L le).2 = k * delayMs := by
  intro L
  induction L with
  | nil => intro le k hk; exact absurd hk (by simp)
  | cons m rest ih =>
      intro le k hk n hfail hsucc
      cases k with
      | zero =>
          simp only [List.get] at hsucc
          simp [runFetchMethods, hsucc]
      | succ k' =>
          obtain ⟨e, he⟩ := hfail 0 (Nat.succ_pos k')
          simp only [List.get] at he hsucc
          have hk' : k' < rest.length := Nat.lt_of_succ_lt_succ hk
          have hrest := ih (some e) k' hk' n
            (fun i hi => hfail (i + 1) (Nat.succ_lt_succ hi)) hsucc
          simp only [runFetchMethods, he]
          refine ⟨hrest.1, ?_⟩
          rw [hrest.2]
          have : rest.isEmpty = false := by
            cases rest with
            | nil => exact absurd hk' (by simp)
            | cons r rs => rfl
          simp [this, delayMs]
          ring

/-- The profile evolution of a successful run of `createPost` calls:
`totalPosts` advances by exactly the number of calls. -/
theorem runPosts_totalPosts (authorId : String) :
    ∀ (calls : List CallArgs) (w : World) (p : Profile),
      w.profile = some p →
      (runPosts authorId calls w).1 = true →
      ∃ pf, (runPosts authorId calls w).2.profile = some pf ∧
        pf.totalPosts = p.totalPosts + calls.length := by
  intro calls
  induction calls with
  | nil => exact fun w p hp _ => ⟨p, hp, rfl⟩
  | cons cargs rest ih =>
      intro w p hp hok
      simp only [runPosts] at hok ⊢
      rcases createPost_profile_cases cargs.env cargs.backImageUri cargs.caption
          cargs.authorName authorId cargs.groupId cargs.frontImageUri w p hp with
        ⟨⟨post, hpost⟩, p', hp', hinc⟩ | ⟨⟨msg, hmsg⟩, -⟩
      · have hok' : (runPosts authorId rest
            (createPost cargs.env cargs.backImageUri cargs.caption cargs.authorName
              authorId cargs.groupId cargs.frontImageUri w).2).1 = true := by
          rw [hpost] at hok
          simpa using hok
        obtain ⟨pf, hpf, htot⟩ := ih _ p' hp' hok'
        refine ⟨pf, hpf, ?_⟩
        rw [htot, hinc, List.length_cons]
        omega
      · rw [hmsg] at hok
        simp at hok

/-- A successful `updateUserPostingStatus` for group `g` leaves a profile
whose unlock check for `g` passes. -/
theorem updateUserPostingStatus_unlocks (now : Nat) (aid g : String) (post : Post)
    (p p' : Profile)
    (h : updateUserPostingStatus now aid g post (some p) = .ok p') :
    isUnlocked p' g = true := by
  obtain ⟨q, hq, -, hgp⟩ := updateUserPostingStatus_some now aid g post p
  rw [h] at hq
  injection hq with hq
  subst hq
  unfold isUnlocked
  rw [hgp]
  split
  · assumption
  · exact List.elem_eq_true_of_mem (by simp)

/-! ### Claims -/

/-- C1: for every profile P and group G, after a successful `recordPost`
(`updateUserPostingStatus`) for P in G, the feed screen's unlock check
`isUnlocked(·, G)` (membership of G in `groupsPosted`) is true, and applying
`recordPost` again for the same user and group leaves it true: unlocking is
monotonic with no reverse transition. -/
theorem claim_C1_unlock_monotonic (now now2 : Nat) (authorId groupId : String)
    (post post2 : Post) (p p' p'' : Profile)
    (h1 : updateUserPostingStatus now authorId groupId post (some p) = .ok p')
    (h2 : updateUserPostingStatus now2 authorId groupId post2 (some p') = .ok p'') :
    isUnlocked p' groupId = true ∧ isUnlocked p'' groupId = true :=
  ⟨updateUserPostingStatus_unlocks now authorId groupId post p p' h1,
   updateUserPostingStatus_unlocks now2 authorId groupId post2 p' p'' h2⟩

/-- C1 witness: a fresh profile posts twice in `g1`; the unlock check holds
after the first post and stays true after the second. -/
theorem claim_C1_witness :
    isUnlocked wProfileA "g1" = true ∧ isUnlocked wProfileB "g1" = true :=
  claim_C1_unlock_monotonic 7 8 "u1" "g1" wPost wPost wProfile wProfileA wProfileB
    rfl rfl

/-- C4: a group id occurs at most once in `groupsPosted` after
`updateUserPostingStatus`, provided it occurred at most once before — the
update appends the group only when it is not already present, and no other
modelled operation writes `groupsPosted`. -/
theorem claim_C4_groupsPosted_once (now : Nat) (authorId groupId : String)
    (post : Post) (p p' : Profile)
    (hcount : p.groupsPosted.count groupId ≤ 1)
    (h : updateUserPostingStatus now authorId groupId post (some p) = .ok p') :
    p'.groupsPosted.count groupId ≤ 1 := by
  obtain ⟨q, hq, -, hgp⟩ := updateUserPostingStatus_some now authorId groupId post p
  rw [h] at hq
  injection hq with hq
  subst hq
  rw [hgp]
  split
  · exact hcount
  · rename_i hcon
    have hnm : groupId ∉ p.groupsPosted := by simpa using hcon
    simp [List.count_append, List.count_eq_zero.mpr hnm]

/-- C4 witness: posting again into the already-recorded group `g1` keeps its
occurrence count in `groupsPosted` at one. -/
theorem claim_C4_witness :
    wProfileA.groupsPosted.count "g1" ≤ 1 ∧
    wProfileB.groupsPosted.count "g1" ≤ 1 :=
  ⟨by decide,
   claim_C4_groupsPosted_once 8 "u1" "g1" wPost wProfileA wProfileB (by decide) rfl⟩

/-- C8: in `updateGroupStatistics`, a successful update increments the
group's remote `totalPosts` by 1 and refreshes `lastActivity`; a
permission-denied failure is swallowed (normal return, groups unchanged);
any other failure propagates to the caller. -/
theorem claim_C8_group_counter :
    (∀ (now : Nat) (gid : String) (g : Group) (groups : List (String × Group)),
       (gid, g) ∈ groups →
       ∃ gs, updateGroupStatistics none now gid groups = .ok gs ∧
         (gid, { g with totalPosts := g.totalPosts + 1, lastActivity := now }) ∈ gs) ∧
    (∀ (e : FireError) (now : Nat) (gid : String) (groups : List (String × Group)),
       e.code = "permission-denied" →
       updateGroupStatistics (some e) now gid groups = .ok groups) ∧
    (∀ (e : FireError) (now : Nat) (gid : String) (groups : List (String × Group)),
       e.code ≠ "permission-denied" →
       updateGroupStatistics (some e) now gid groups = .error e) := by
  refine ⟨?_, ?_, ?_⟩
  · intro now gid g groups hmem
    refine ⟨_, rfl, ?_⟩
    have h := List.mem_map_of_mem
      (fun kv : String × Group =>
        if kv.1 = gid then
          (kv.1, { kv.2 with totalPosts := kv.2.totalPosts + 1, lastActivity := now })
        else kv) hmem
    simpa using h
  · intro e now gid groups he
    simp [updateGroupStatistics, he]
  · intro e now gid groups he
    simp [updateGroupStatistics, he]

/-- C8 witness: the three behaviours of `updateGroupStatistics` evaluated on
group `g1`: plain success, swallowed permission-denied, propagated other
error. -/
theorem claim_C8_witness :
    (∃ gs, updateGroupStatistics none 7 "g1" [("g1", wGroup)] = .ok gs ∧
       ("g1", { wGroup with totalPosts := wGroup.totalPosts + 1, lastActivity := 7 }) ∈ gs) ∧
    updateGroupStatistics (some wPermErr) 7 "g1" [("g1", wGroup)] = .ok [("g1", wGroup)] ∧
    updateGroupStatistics (some wOtherErr) 7 "g1" [("g1", wGroup)] = .error wOtherErr :=
  ⟨claim_C8_group_counter.1 7 "g1" wGroup [("g1", wGroup)] (by decide),
   claim_C8_group_counter.2.1 wPermErr 7 "g1" [("g1", wGroup)] (by decide),
   claim_C8_group_counter.2.2 wOtherErr 7 "g1" [("g1", wGroup)] (by decide)⟩

/-- C10: `hasUserPostedInGroup` is true iff the remote author+group query
succeeds with a non-empty list; it is false whenever that query fails — in
particular it reports false for a user whose post is in the store when the
query fails, and is independent of `groupsPosted` (it can be false while
`isUnlocked` is true). -/
theorem claim_C10_hasPosted (queryFails : Bool) (userId groupId : String)
    (posts : List Post) :
    (hasUserPostedInGroup queryFails userId groupId posts = true ↔
      queryFails = false ∧
        posts.filter (fun p => p.authorId == userId && p.groupId == groupId) ≠ []) ∧
    (∀ post ∈ posts, post.authorId = userId → post.groupId = groupId →
      hasUserPostedInGroup true userId groupId posts = false) ∧
    (∀ profile : Profile, isUnlocked profile groupId = true →
      hasUserPostedInGroup true userId groupId posts = false) := by
  refine ⟨?_, fun _ _ _ _ => rfl, fun _ _ => rfl⟩
  cases queryFails with
  | true => simp [hasUserPostedInGroup, getUserPostsInGroup, getUserPostsInGroupQuery]
  | false =>
      simp [hasUserPostedInGroup, getUserPostsInGroup, getUserPostsInGroupQuery,
        length_sortByCreatedAtDesc, List.length_pos]

/-- C10 witness: with `wPost` (author `u1`, group `g1`) in the store, a
failing query reports false — although the unlocked profile `wProfileA`
shows `u1` has posted — and a healthy query reports true. -/
theorem claim_C10_witness :
    hasUserPostedInGroup true "u1" "g1" [wPost] = false ∧
    hasUserPostedInGroup true "u1" "g1" [wPost] = false ∧
    hasUserPostedInGroup false "u1" "g1" [wPost] = true :=
  ⟨(claim_C10_hasPosted true "u1" "g1" [wPost]).2.1 wPost (by decide) (by decide)
     (by decide),
   (claim_C10_hasPosted true "u1" "g1" [wPost]).2.2 wProfileA (by decide),
   ((claim_C10_hasPosted false "u1" "g1" [wPost]).1).mpr ⟨rfl, by decide⟩⟩

/-- C6: every read query fails open — a store-level failure makes
`getGroupPosts`, `getUserPosts` and `getUserPostsInGroup` return the empty
list (they never throw, being total functions into `List Post`) — while a
failing post write (`addDoc`) propagates its failure out of `createPost` and
leaves the post store unchanged. -/
theorem claim_C6_read_fail_open :
    (∀ (groupId : String) (posts : List Post),
      getGroupPosts true groupId posts = []) ∧
    (∀ (userId : String) (posts : List Post),
      getUserPosts true userId posts = []) ∧
    (∀ (userId groupId : String) (posts : List Post),
      getUserPostsInGroup true userId groupId posts = []) ∧
    (∀ (env : Env) (b c an aid g : String) (f : Option String) (w : World)
       (e : FireError),
      b ≠ "" → strTrim c ≠ "" → strTrim an ≠ "" → strTrim aid ≠ "" →
      strTrim g ≠ "" → uploadsOk env b f aid → env.addDocOutcome = .error e →
      (createPost env b c an aid g f w).1 =
        .error ("Post creation failed: " ++ e.message) ∧
      (createPost env b c an aid g f w).2.posts = w.posts) := by
  refine ⟨?_, fun _ _ => rfl, fun _ _ _ => rfl, ?_⟩
  · intro gid posts
    by_cases hgid : gid = "" <;> simp [getGroupPosts, getGroupPostsQuery, hgid]
  · intro env b c an aid g f w e hb hc han haid hg hu hadd
    obtain ⟨main, front, st, heq, -⟩ :=
      createPost_reaches_write env b c an aid g f w hb hc han haid hg hu
    rw [heq, savePostAndStats_err env c an aid g main front _ e hadd]
    exact ⟨rfl, rfl⟩

/-- C6 witness: the three failing reads return `[]` on a store with one
post, and a failing write surfaces `Post creation failed: write failed`
with the post store untouched. -/
theorem claim_C6_witness :
    getGroupPosts true "g1" [wPost] = [] ∧
    getUserPosts true "u1" [wPost] = [] ∧
    getUserPostsInGroup true "u1" "g1" [wPost] = [] ∧
    ((createPost wEnvAddFail "file://back.jpg" "cap" "Alice" "u1" "g1" none wWorld).1 =
       .error ("Post creation failed: " ++ wAddErr.message) ∧
     (createPost wEnvAddFail "file://back.jpg" "cap" "Alice" "u1" "g1" none wWorld).2.posts =
       wWorld.posts) :=
  ⟨claim_C6_read_fail_open.1 "g1" [wPost],
   claim_C6_read_fail_open.2.1 "u1" [wPost],
   claim_C6_read_fail_open.2.2.1 "u1" "g1" [wPost],
   claim_C6_read_fail_open.2.2.2 wEnvAddFail "file://back.jpg" "cap" "Alice" "u1" "g1"
     none wWorld wAddErr (by decide) (by decide) (by decide) (by decide) (by decide)
     ⟨wImgMain, rfl, by decide⟩ rfl⟩

/-- C2: in a dual-image `createPost`, if the back upload succeeds and the
front upload then fails, the stored back image's storage path is deleted
best-effort before the failure is surfaced — when deletion succeeds the path
is gone from storage, when deletion fails the error is still surfaced (not
escalated) and the path remains — and no Post document is written. -/
theorem claim_C2_dual_cleanup (env : Env) (b furi c an aid g : String) (w : World)
    (m : ImageResult) (e : String)
    (hb : b ≠ "") (hc : strTrim c ≠ "") (han : strTrim an ≠ "")
    (haid : strTrim aid ≠ "") (hg : strTrim g ≠ "") (hf : furi ≠ "")
    (hm : env.uploadOutcome b "main" = .ok m) (hmu : m.downloadURL ≠ "")
    (hmp : m.path ≠ "")
    (hfr : env.uploadOutcome furi "front" = .error e) :
    (∃ msg, (createPost env b c an aid g (some furi) w).1 = .error msg) ∧
    (createPost env b c an aid g (some furi) w).2.posts = w.posts ∧
    (env.deleteOk m.path = true →
      (createPost env b c an aid g (some furi) w).2.storagePaths = w.storagePaths) ∧
    (env.deleteOk m.path = false →
      (createPost env b c an aid g (some furi) w).2.storagePaths =
        m.path :: w.storagePaths) := by
  have hg' : g ≠ "" := trim_ne_empty hg
  have haid' : aid ≠ "" := trim_ne_empty haid
  have hdu : uploadDualImages env b furi g aid w.storagePaths =
      (.error ("Dual image upload failed: Front camera upload failed: " ++ e),
       (deleteImage env m.path (m.path :: w.storagePaths)).2) := by
    simp only [uploadDualImages, if_neg hb, if_neg hf, if_neg hg', if_neg haid',
      uploadImage_ok env b g aid "main" w.storagePaths m hb hg' haid' hm,
      uploadImage_err env furi g aid "front" (m.path :: w.storagePaths) e hf hg' haid' hfr]
    simp [hmu]
  have hcp : createPost env b c an aid g (some furi) w =
      (.error ("Post creation failed: Failed to upload images: " ++
        ("Dual image upload failed: Front camera upload failed: " ++ e)),
       { w with storagePaths := (deleteImage env m.path (m.path :: w.storagePaths)).2 }) := by
    simp only [createPost, if_neg hb, if_neg hc, if_neg han, if_neg haid, if_neg hg, hdu]
  rw [hcp]
  refine ⟨⟨_, rfl⟩, rfl, ?_, ?_⟩
  · intro hdel
    simp [deleteImage, if_neg hmp, hdel, List.erase_cons_head]
  · intro hdel
    simp [deleteImage, if_neg hmp, hdel]

/-- C2 witness: on a concrete dual call whose front upload fails, an error
is surfaced, no post is written, and the back path `groups/g1/photos/main.jpg`
is removed when deletion works and kept when it does not. -/
theorem claim_C2_witness :
    (∃ msg,
      (createPost wEnvFrontFail "file://back.jpg" "cap" "Alice" "u1" "g1"
        (some "file://front.jpg") wWorld).1 = .error msg) ∧
    (createPost wEnvFrontFail "file://back.jpg" "cap" "Alice" "u1" "g1"
      (some "file://front.jpg") wWorld).2.posts = wWorld.posts ∧
    (wEnvFrontFail.deleteOk wImgMain.path = true →
      (createPost wEnvFrontFail "file://back.jpg" "cap" "Alice" "u1" "g1"
        (some "file://front.jpg") wWorld).2.storagePaths = wWorld.storagePaths) ∧
    (wEnvFrontFail.deleteOk wImgMain.path = false →
      (createPost wEnvFrontFail "file://back.jpg" "cap" "Alice" "u1" "g1"
        (some "file://front.jpg") wWorld).2.storagePaths =
          wImgMain.path :: wWorld.storagePaths) :=
  claim_C2_dual_cleanup wEnvFrontFail "file://back.jpg" "file://front.jpg" "cap"
    "Alice" "u1" "g1" wWorld wImgMain "network request failed"
    (by decide) (by decide) (by decide) (by decide) (by decide) (by decide)
    rfl (by decide) (by decide) rfl

/-- C3: on every input on which the post-store write succeeds, a failing
statistics update (missing cached profile, or a non-permission group update
error — the ways `updatePostStatistics` can throw) does not prevent
`createPost` from returning the created post with its assigned id. -/
theorem claim_C3_stats_nonblocking (env : Env) (b c an aid g : String)
    (f : Option String) (w : World) (docId : String)
    (hb : b ≠ "") (hc : strTrim c ≠ "") (han : strTrim an ≠ "")
    (haid : strTrim aid ≠ "") (hg : strTrim g ≠ "")
    (hu : uploadsOk env b f aid)
    (hadd : env.addDocOutcome = .ok docId)
    (hstats : w.profile = none ∨
      ∃ e, env.groupUpdateOutcome = some e ∧ e.code ≠ "permission-denied") :
    ∃ post, (createPost env b c an aid g f w).1 = .ok post ∧ post.id = docId := by
  obtain ⟨main, front, st, heq, -⟩ :=
    createPost_reaches_write env b c an aid g f w hb hc han haid hg hu
  rw [heq,
    (savePostAndStats_ok env c an aid g main front { w with storagePaths := st }
      docId hadd).1]
  exact ⟨_, rfl, rfl⟩

/-- C3 witness: with the group counter update failing with a non-permission
error, the concrete `createPost` still returns the post with id `post1`. -/
theorem claim_C3_witness :
    ∃ post,
      (createPost wEnvStatsFail "file://back.jpg" "cap" "Alice" "u1" "g1" none
        wWorld).1 = .ok post ∧ post.id = "post1" :=
  claim_C3_stats_nonblocking wEnvStatsFail "file://back.jpg" "cap" "Alice" "u1" "g1"
    none wWorld "post1" (by decide) (by decide) (by decide) (by decide) (by decide)
    ⟨wImgMain, rfl, by decide⟩ rfl (Or.inr ⟨wOtherErr, rfl, by decide⟩)

/-- C5: starting from a fresh profile with `totalPosts = 0`, after `N`
successful `createPost` calls by the same author across any groups the
cached profile's `totalPosts` equals `N`; moreover a single `createPost`
call never decreases `totalPosts`. -/
theorem claim_C5_totalPosts :
    (∀ (authorId : String) (calls : List CallArgs) (w : World) (p : Profile),
      w.profile = some p → p.totalPosts = 0 →
      (runPosts authorId calls w).1 = true →
      ∃ pf, (runPosts authorId calls w).2.profile = some pf ∧
        pf.totalPosts = calls.length) ∧
    (∀ (env : Env) (b c an aid g : String) (f : Option String) (w : World)
       (p : Profile),
      w.profile = some p →
      ∃ p', (createPost env b c an aid g f w).2.profile = some p' ∧
        p.totalPosts ≤ p'.totalPosts) := by
  constructor
  · intro authorId calls w p hp h0 hok
    obtain ⟨pf, hpf, htot⟩ := runPosts_totalPosts authorId calls w p hp hok
    exact ⟨pf, hpf, by omega⟩
  · intro env b c an aid g f w p hp
    rcases createPost_profile_cases env b c an aid g f w p hp with
      ⟨-, p', hp', hinc⟩ | ⟨-, hsame⟩
    · exact ⟨p', hp', by omega⟩
    · exact ⟨p, hsame, Nat.le_refl _⟩

/-- C5 witness: two successful posts from the fresh `wProfile` leave
`totalPosts = 2`, and one call from `wWorld` does not decrease the
counter. -/
theorem claim_C5_witness :
    (∃ pf, (runPosts "u1" [wCall, wCall] wWorld).2.profile = some pf ∧
      pf.totalPosts = ([wCall, wCall] : List CallArgs).length) ∧
    (∃ p', (createPost wEnv "file://back.jpg" "cap" "Alice" "u1" "g1" none
        wWorld).2.profile = some p' ∧ wProfile.totalPosts ≤ p'.totalPosts) :=
  ⟨claim_C5_totalPosts.1 "u1" [wCall, wCall] wWorld wProfile rfl rfl rfl,
   claim_C5_totalPosts.2 wEnv "file://back.jpg" "cap" "Alice" "u1" "g1" none
     wWorld wProfile rfl⟩

/-- C7 counterexample: the `postData` record assembled by `createPost`
contains no `comments` field at all (so the assembled post does not satisfy
`comments = ∅`); what it does contain is a numeric `likes` counter together
with a separate `likedBy` array. -/
theorem claim_C7_counterexample :
    "comments" ∉ postDataFields ∧
    "likes" ∈ postDataFields ∧ "likedBy" ∈ postDataFields := by
  decide

/-- C7 (amended): for every successful `createPost`, the assembled post has
the caption and author/group fields trimmed, `createdAt` set to the current
time, the numeric `likes` counter 0 with an empty `likedBy` array (and no
`comments` field, per the counterexample), and a type tag reflecting
single- vs dual-image; a call with no front image yields
`type = "single_camera"` and `frontImageUrl = null`. -/
theorem claim_C7_amended (env : Env) (b c an aid g : String) (f : Option String)
    (w : World) (docId : String)
    (hb : b ≠ "") (hc : strTrim c ≠ "") (han : strTrim an ≠ "")
    (haid : strTrim aid ≠ "") (hg : strTrim g ≠ "")
    (hu : uploadsOk env b f aid) (hadd : env.addDocOutcome = .ok docId) :
    ∃ post, (createPost env b c an aid g f w).1 = .ok post ∧
      post.caption = strTrim c ∧ post.authorName = strTrim an ∧
      post.authorId = strTrim aid ∧ post.groupId = strTrim g ∧
      post.createdAt = env.now ∧ post.likes = 0 ∧ post.likedBy = [] ∧
      post.type = (match f with
        | some _ => "dual_camera"
        | none => "single_camera") ∧
      (f = none → post.frontImageUrl = none) := by
  obtain ⟨main, front, st, heq, hiso⟩ :=
    createPost_reaches_write env b c an aid g f w hb hc han haid hg hu
  rw [heq,
    (savePostAndStats_ok env c an aid g main front { w with storagePaths := st }
      docId hadd).1]
  cases f with
  | none =>
      have hfr : front = none := by
        cases front with
        | none => rfl
        | some x => simp at hiso
      subst hfr
      exact ⟨_, rfl, rfl, rfl, rfl, rfl, rfl, rfl, rfl, rfl, fun _ => rfl⟩
  | some furi =>
      obtain ⟨x, hfr⟩ : ∃ x, front = some x := by
        cases front with
        | none => simp at hiso
        | some x => exact ⟨x, rfl⟩
      subst hfr
      exact ⟨_, rfl, rfl, rfl, rfl, rfl, rfl, rfl, rfl, rfl, fun h => by cases h⟩

/-- C7 witness: the concrete single-image call returns a post with trimmed
fields, `createdAt = 7`, `likes = 0`, `likedBy = []`,
`type = "single_camera"` and `frontImageUrl = null`. -/
theorem claim_C7_witness :
    ∃ post,
      (createPost wEnv "file://back.jpg" " cap " "Alice " "u1" "g1" none wWorld).1 =
        .ok post ∧
      post.caption = strTrim " cap " ∧ post.authorName = strTrim "Alice " ∧
      post.authorId = strTrim "u1" ∧ post.groupId = strTrim "g1" ∧
      post.createdAt = wEnv.now ∧ post.likes = 0 ∧ post.likedBy = [] ∧
      post.type = (match (none : Option String) with
        | some _ => "dual_camera"
        | none => "single_camera") ∧
      ((none : Option String) = none → post.frontImageUrl = none) :=
  claim_C7_amended wEnv "file://back.jpg" " cap " "Alice " "u1" "g1" none wWorld
    "post1" (by decide) (by decide) (by decide) (by decide) (by decide)
    ⟨wImgMain, rfl, by decide⟩ rfl

/-- C9 counterexample: the `fetchMethods` ladder of `handleFileUri` is not
ordered from more complex to progressively simpler configurations — the
first strategy carries no headers while the second carries one, so header
complexity strictly increases between the first two attempts. -/
theorem claim_C9_counterexample :
    ¬ (∀ i j : Fin fetchMethods.length, i ≤ j →
        (fetchMethods.get j).options.headers.length ≤
          (fetchMethods.get i).options.headers.length) := by
  decide

/-- C9 (amended): `handleFileUri` tries the fixed ordered strategy list
`fetchMethods` — a simple no-header fetch first, then one `Accept` header,
then two specific headers, then minimal options — with a fixed 300 ms delay
after each failed non-final attempt, returns the first successful non-empty
result, and after exhausting all four attempts fails with the terminal
`Failed to process file URI` error. -/
theorem claim_C9_amended :
    (fetchMethods.map fun m => m.options.headers.length) = [0, 1, 2, 0] ∧
    delayMs = 300 ∧
    (∀ fetchR : FetchOptions → Except String Nat,
      (∀ m ∈ fetchMethods, ∃ e, tryFetchMethod fetchR m = .error e) →
      (∃ msg, (handleFileUri fetchR).1 = .error msg) ∧
      (handleFileUri fetchR).2 = (fetchMethods.length - 1) * delayMs) ∧
    (∀ (fetchR : FetchOptions → Except String Nat) (k : Nat)
       (hk : k < fetchMethods.length) (n : Nat),
      (∀ i (hi : i < k), ∃ e,
        tryFetchMethod fetchR (fetchMethods.get ⟨i, Nat.lt_trans hi hk⟩) = .error e) →
      tryFetchMethod fetchR (fetchMethods.get ⟨k, hk⟩) = .ok n →
      (handleFileUri fetchR).1 = .ok n ∧ (handleFileUri fetchR).2 = k * delayMs) := by
  refine ⟨by decide, rfl, ?_, ?_⟩
  · intro fetchR hfail
    exact runFetchMethods_all_fail fetchR fetchMethods none hfail
  · intro fetchR k hk n hfail hsucc
    exact runFetchMethods_first_success fetchR fetchMethods none k hk n hfail hsucc

/-- C9 witness: a fetch oracle succeeding only on the one-header strategy
makes `handleFileUri` return that result after one 300 ms wait, and an
always-failing oracle exhausts all four strategies with three waits. -/
theorem claim_C9_witness :
    ((handleFileUri wFetchSecond).1 = .ok 42 ∧
      (handleFileUri wFetchSecond).2 = 1 * delayMs) ∧
    ((∃ msg, (handleFileUri wFetchFail).1 = .error msg) ∧
      (handleFileUri wFetchFail).2 = (fetchMethods.length - 1) * delayMs) :=
  ⟨claim_C9_amended.2.2.2 wFetchSecond 1 (by decide) 42
      (fun i hi =>
        match i, hi with
        | 0, _ => ⟨"network request failed", rfl⟩)
      rfl,
   claim_C9_amended.2.2.1 wFetchFail
     (fun m _ => ⟨"network request failed", rfl⟩)⟩

end SocialPlatform
